import Mathlib

/-!
Verification development for the x402-gated Kalshi trade service.

Shallow embedding of the payment-gated settlement pipeline:
`server.py` (the `/trade` endpoint `execute_trade`), `x402_handler.py`
(`require_payment`, `verify_payment`, `_verify_on_chain`) and
`escrow_handler.py` (`verify_deposit`, `release_funds`, `refund_funds`).

Conventions of the embedding:
- Python floats are modelled as rationals (`ℚ`).  This idealizes the source's
  IEEE-double arithmetic: it agrees with the doubles at the decimal amounts
  the concrete theorems below evaluate, but not at the boundary of the
  `0.01` tolerance comparisons, where double rounding decides acceptance in
  a magnitude-dependent way; no theorem below rests on boundary behaviour.
- Python exceptions are modelled with `Except PyErr`; a `try/except` block
  becomes a `match` on the `Except` value of its body.
- External collaborators (price API, escrow contract reads, facilitator HTTP
  responses, chain RPC answers, exchange order submission, ledger store) are
  modelled as oracle fields of explicit world records: one request is one
  deterministic function of the request, the configuration, and the world.
- Side-effecting calls issued during a request are collected in a
  `List SrvAction` so that theorems can speak about which external calls were or
  were not issued.
-/

/-- Decidable equality for `Except`, used to evaluate the embedding on
concrete worlds. -/
instance exceptDecEq {ε α : Type} [DecidableEq ε] [DecidableEq α] :
    DecidableEq (Except ε α)
  | Except.ok a, Except.ok b =>
    if h : a = b then Decidable.isTrue (by rw [h])
    else Decidable.isFalse (fun hc => h (Except.ok.inj hc))
  | Except.ok _, Except.error _ => Decidable.isFalse (fun hc => Except.noConfusion hc)
  | Except.error _, Except.ok _ => Decidable.isFalse (fun hc => Except.noConfusion hc)
  | Except.error e, Except.error f =>
    if h : e = f then Decidable.isTrue (by rw [h])
    else Decidable.isFalse (fun hc => h (Except.error.inj hc))

/-- Absolute value on `ℚ`, written out so that concrete evaluations reduce
(models Python `abs`). -/
def ratAbs (x : ℚ) : ℚ := if x < 0 then -x else x

/-- Classes of Python exceptions that the handlers in the source distinguish:
`requests.exceptions.RequestException` is caught separately from the generic
`Exception` in `x402_handler.py`; the remaining constructors record the concrete
error classes raised by the code paths modelled here. -/
inductive PyErr where
  | typeError
  | valueError
  | keyError
  | attrError
  | requestException
  | other
deriving DecidableEq

/-- Python truthiness of an optional string: `None` and the empty string are
falsy, every other string is truthy. -/
def pyTruthy : Option String → Bool
  | none => false
  | some s => !(s == "")

/-- Python `a or b` on optional strings: yields `b` when `a` is `None` or empty
(falsy), otherwise `a`. -/
def pyStrOr (a b : Option String) : Option String :=
  match a with
  | none => b
  | some s => if s = "" then b else some s

/-- ASCII lower-casing of one character, as `str.lower()` acts on the
address strings compared in the source. -/
def asciiLowerChar (c : Char) : Char :=
  if 'A' ≤ c ∧ c ≤ 'Z' then Char.ofNat (c.toNat + 32) else c

/-- ASCII lower-casing of a string (`str.lower()` on address strings). -/
def asciiLower (s : String) : String :=
  String.mk (s.data.map asciiLowerChar)

/-- Hexadecimal digit test, as `bytes.fromhex` accepts. -/
def isHexChar (c : Char) : Bool :=
  decide (('0' ≤ c ∧ c ≤ '9') ∨ ('a' ≤ c ∧ c ≤ 'f') ∨ ('A' ≤ c ∧ c ≤ 'F'))

/-- Python `s.replace("0x", "")`: remove every (leftmost-first,
non-overlapping) occurrence of the two-character substring `0x`. -/
def replace0x : List Char → List Char
  | [] => []
  | [c] => [c]
  | c :: d :: rest =>
    if c = '0' ∧ d = 'x' then replace0x rest
    else c :: replace0x (d :: rest)

/-- Strip one leading `0x` prefix if present (used only by the
spec-side routing shape below, which speaks of an optional prefix). -/
def strip0x : List Char → List Char
  | [] => []
  | [c] => [c]
  | c :: d :: rest => if c = '0' ∧ d = 'x' then rest else c :: d :: rest

/-- `bytes.fromhex` on the character list of a string, modelled up to the byte
count: spaces are skipped, the remaining characters must be hex digits in full
pairs; the result is the number of decoded bytes.  Raises `ValueError` on any
non-hex character or odd digit count (`escrow_handler` callers only ever use
the length of the result). -/
def bytes_fromhex_len (cs : List Char) : Except PyErr Nat :=
  let cleaned := cs.filter (fun c => !(c == ' '))
  if cleaned.all isHexChar && cleaned.length % 2 == 0 then
    Except.ok (cleaned.length / 2)
  else
    Except.error PyErr.valueError

/-- Routing predicate of `server.py` (lines 157, 219, 238):
`len(payment_signature.replace('0x', '')) == 64`. -/
def is_trade_hash (s : String) : Bool :=
  (replace0x s.data).length == 64

/-- Modelled from the spec wording for the proof-string routing rule (§3
PaymentProof, claim C2): exactly 64 hex characters after stripping an optional
`0x` prefix.  This is the spec-side shape, kept separate from the source's
`is_trade_hash` so the two can be compared. -/
def claim_escrow_hash_shape (s : String) : Bool :=
  (strip0x s.data).length == 64 && (strip0x s.data).all isHexChar

/-- Escrow-path amount check of `server.py` line 177: the deposit is accepted
unless `abs(trade_info["amount"] - required_payment) > 0.01`.  The source
compares IEEE doubles; this rational idealization agrees with it away from
the tolerance boundary (the theorems below only use it at such inputs) but
not exactly at `|recorded - required| = 0.01`, where double rounding decides
the comparison. -/
def escrow_amount_accepts (recorded required : ℚ) : Bool :=
  !(decide (ratAbs (recorded - required) > 1 / 100))

/-- On-chain Transfer-log amount check of `x402_handler.py` line 226: the
transfer is accepted when `abs(amount_usdc - expected_amount) < 0.01`.  Same
IEEE-double caveat as `escrow_amount_accepts`: faithful away from the
tolerance boundary, which is where the theorems below use it. -/
def onchain_amount_accepts (amountUsdc expected : ℚ) : Bool :=
  decide (ratAbs (amountUsdc - expected) < 1 / 100)

/-! ## Escrow handler (`escrow_handler.py`) -/

/-- Tuple returned by the escrow contract's `getTrade(tradeHash)` view call
(`escrow_handler.py` lines 33-51): `(agent, recipient, amount, kalshiTradeId,
deadline, released, refunded)`, with `amount` a 6-decimal fixed-point
integer. -/
structure EscrowTrade where
  agent : String
  recipient : String
  amount : ℤ
  kalshiTradeId : String
  deadline : ℤ
  released : Bool
  refunded : Bool
deriving DecidableEq

/-- Dictionary built by `EscrowHandler.verify_deposit` (lines 99-107), with
`amount` already converted to USD by dividing by 1,000,000. -/
structure TradeInfoD where
  agent : String
  recipient : String
  amount : ℚ
  kalshiTradeId : String
  deadline : ℤ
  released : Bool
  refunded : Bool
deriving DecidableEq

/-- The zero address against which `verify_deposit` tests existence. -/
def zero_address : String := "0x0000000000000000000000000000000000000000"

/-- `EscrowHandler.verify_deposit` (lines 76-112).  The argument is the outcome
of the `getTrade` contract call (the only fallible step inside its `try`);
on any exception the method returns `(False, {})`, modelled as `(false, none)`.
Otherwise `exists = agent != zero address`,
`is_active = exists and not released and not refunded`, and the trade info
dictionary is returned with the amount divided by 1,000,000. -/
def verify_deposit (call : Except PyErr EscrowTrade) : Bool × Option TradeInfoD :=
  match call with
  | Except.error _ => (false, none)
  | Except.ok t =>
    (decide (t.agent ≠ zero_address) && !t.released && !t.refunded,
     some ⟨t.agent, t.recipient, (t.amount : ℚ) / 1000000,
           t.kalshiTradeId, t.deadline, t.released, t.refunded⟩)

/-! ## On-chain verification (`x402_handler.py`, `_verify_on_chain`) -/

/-- One entry of `receipt.logs` as the scan at lines 212-233 consumes it:
the emitting contract address, whether `process_log` decodes it as a Transfer
event (any decode exception is skipped), and the decoded destination and
6-decimal fixed-point value. -/
structure TransferLog where
  address : String
  decodeOk : Bool
  toAddr : String
  value : ℤ
deriving DecidableEq

/-- Transaction receipt as consumed: `status` and `logs`. -/
structure Receipt where
  status : ℤ
  logs : List TransferLog
deriving DecidableEq

/-- Transaction object as consumed: only `tx.to` is read
(`None` for contract-creation transactions). -/
structure TxObj where
  toAddr : Option String
deriving DecidableEq

/-- Oracle for one `_verify_on_chain` run: the chain-detection probe result
(lines 136-147, each probe's exception is swallowed by `continue`), the two
`get_transaction` calls, the `get_transaction_receipt` call, and the chain
registry.  `usdcOf` is modelled from the spec (§2 ChainRegistry, §3
ChainConfig): `chain_config.py` is imported from outside `src/`; the code's
`CHAIN_CONFIGS.get(chain, CHAIN_CONFIGS["ethereum"])` makes the lookup total,
so the registry is a total map from chain name to stablecoin address. -/
structure OnChainWorld where
  detectedChain : Option String
  usdcOf : String → String
  getTx1 : Except PyErr Unit
  getReceipt : Except PyErr (Option Receipt)
  getTx2 : Except PyErr TxObj

/-- Scan of `receipt.logs` (lines 212-233): skip logs not emitted by the
stablecoin contract, skip logs that fail to decode, and accept the first
decoded Transfer whose destination matches the expected recipient
(case-insensitively) and whose USD value passes `onchain_amount_accepts`;
a matching destination with a mismatching amount keeps scanning. -/
def scanLogs (usdc recipLower : String) (expected : ℚ) : List TransferLog → Bool
  | [] => false
  | l :: rest =>
    if asciiLower l.address ≠ asciiLower usdc then scanLogs usdc recipLower expected rest
    else if !l.decodeOk then scanLogs usdc recipLower expected rest
    else if asciiLower l.toAddr = recipLower then
      if onchain_amount_accepts ((l.value : ℚ) / 1000000) expected then true
      else scanLogs usdc recipLower expected rest
    else scanLogs usdc recipLower expected rest

/-- Body of `X402Handler._verify_on_chain` (lines 122-236), i.e. the code
inside its outer `try`.  The `tx_hash` normalization and RPC-provider
construction have no observable effect in the model; chain resolution follows
lines 135-156 (explicit chain if truthy, else the detection probe, else
`"ethereum"`).  `Except.error` models an exception escaping to the outer
handler (only the unguarded second `get_transaction` at line 183 can do so). -/
def verify_on_chain_body (txHash : String) (expected : ℚ) (currency : String)
    (recip chain : Option String) (w : OnChainWorld) : Except PyErr Bool :=
  let chain1 := if pyTruthy chain then chain else w.detectedChain
  let chainName := if pyTruthy chain1 then chain1.getD ("") else ("ethereum")
  let usdc := w.usdcOf chainName
  match w.getTx1 with
  | Except.error _ => Except.ok false
  | Except.ok _ =>
    match w.getReceipt with
    | Except.error _ => Except.ok false
    | Except.ok none => Except.ok false
    | Except.ok (some receipt) =>
      if receipt.status = 1 then
        match w.getTx2 with
        | Except.error e => Except.error e
        | Except.ok tx =>
          match tx.toAddr with
          | none => Except.ok false
          | some toA =>
            if asciiLower toA = asciiLower usdc then
              let recipLower :=
                match recip with
                | some r => if r = "" then ("") else asciiLower r
                | none => ("")
              Except.ok (scanLogs usdc recipLower expected receipt.logs)
            else Except.ok false
      else Except.ok false

/-- `X402Handler._verify_on_chain` (lines 107-242): the body wrapped in the
outer `try/except Exception` that converts any escaped exception into
`False`. -/
def verify_on_chain (txHash : String) (expected : ℚ) (currency : String)
    (recip chain : Option String) (w : OnChainWorld) : Except PyErr Bool :=
  match verify_on_chain_body txHash expected currency recip chain w with
  | Except.ok b => Except.ok b
  | Except.error _ => Except.ok false

/-! ## Facilitator verification (`x402_handler.py`, `verify_payment`) -/

/-- Outcome of the `requests.post` to the facilitator `/verify` endpoint
(lines 83-91): either a `RequestException` (connection error, timeout), or a
response with a status code and — parsed only on status 200 — the optional
boolean `verified` field of its JSON body (`Except.error` models
`response.json()` raising; its class is supplied by the oracle since it
depends on the installed `requests` version). -/
inductive FacOutcome where
  | reqError
  | resp (status : Nat) (jsonVerified : Except PyErr (Option Bool))

/-- Body of `X402Handler.verify_payment`'s `try` block (lines 70-95):
ask the facilitator; on HTTP 200 answer with the `verified` field
(missing field defaults to `False`); on any other status fall through to
`_verify_on_chain`. -/
def verify_payment_body (proof : String) (expected : ℚ) (currency : String)
    (recipient chain : Option String) (fac : FacOutcome) (oc : OnChainWorld) :
    Except PyErr Bool :=
  match fac with
  | FacOutcome.reqError => Except.error PyErr.requestException
  | FacOutcome.resp status jsonVerified =>
    if status = 200 then
      match jsonVerified with
      | Except.error e => Except.error e
      | Except.ok v => Except.ok (v.getD false)
    else verify_on_chain proof expected currency recipient chain oc

/-- `X402Handler.verify_payment` (lines 52-105): resolve the recipient with
Python `or`, run the body, catch `RequestException` by falling back to
`_verify_on_chain`, and catch every other exception by returning `False`. -/
def verify_payment (proof : String) (expected : ℚ) (currency : String)
    (recipientArg selfRecipient chain : Option String) (fac : FacOutcome)
    (oc : OnChainWorld) : Except PyErr Bool :=
  let recipient := pyStrOr recipientArg selfRecipient
  match verify_payment_body proof expected currency recipient chain fac oc with
  | Except.ok b => Except.ok b
  | Except.error PyErr.requestException =>
    verify_on_chain proof expected currency recipient chain oc
  | Except.error _ => Except.ok false

/-! ## Payment requirement (`x402_handler.py`, `require_payment`) and the
keyword-argument contract of its call site in `server.py` -/

/-- Parameter names accepted by `X402Handler.require_payment`
(`x402_handler.py` lines 14-16), `self` excluded. -/
def require_payment_param_names : List String :=
  ["amount_usd", "currency", "recipient_address", "memo", "chain"]

/-- Keyword arguments passed by the `/trade` endpoint's call to
`require_payment` (`server.py` lines 142-150). -/
def trade_endpoint_kwarg_names : List String :=
  ["amount_usd", "currency", "recipient_address", "memo", "chain",
   "escrow_address", "trade_hash"]

/-- Python keyword binding succeeds only when every supplied keyword names a
parameter of the callee; an unexpected keyword raises `TypeError` before the
body runs. -/
def pyCallKwargsOk (params kwargs : List String) : Bool :=
  kwargs.all (fun k => params.contains k)

/-! ## The `/trade` endpoint (`server.py`, `execute_trade`) -/

/-- External calls issued while serving one `/trade` request. -/
inductive SrvAction where
  | priceQuery (ticker side : String)
  | getTradeCall (sig : String)
  | verifyPaymentCall (sig : String) (amount : ℚ)
  | execTradeCall (ticker side : String) (qty : ℤ) (price : ℚ)
  | refundCall (sig : String)
  | releaseCall (sig : String) (tradeId : String)
  | ledgerWrite (agentId ticker : String) (qty : ℤ) (side tradeId : String)
      (price : ℚ) (sig : String)
deriving DecidableEq

/-- Responses the endpoint can produce, one constructor per `return` site
class of `server.py` (error-message interpolations are abbreviated to fixed
tags). -/
inductive Response where
  | badRequest (msg : String)
  | priceFailed (contract : String)
  | paymentRequired (amount : ℚ) (currency address chain memo : String)
  | verifFailed (msg : String) (requiredAmount : ℚ)
  | execFailed (contract : String) (refunded : Bool)
  | success (tradeId : String) (price : ℚ) (quantity : ℤ)
      (contract side : String) (totalCost : ℚ) (agentId : String)
deriving DecidableEq

/-- HTTP status code of each response. -/
def Response.status : Response → Nat
  | Response.badRequest _ => 400
  | Response.priceFailed _ => 500
  | Response.paymentRequired _ _ _ _ _ => 402
  | Response.verifFailed _ _ => 402
  | Response.execFailed _ _ => 500
  | Response.success _ _ _ _ _ _ _ => 200

/-- Body of `X402Handler.require_payment` (lines 14-50), were its call to
bind: the 402 response whose `PAYMENT-REQUIRED` header carries
`amount`, `currency`, `address` (argument, else the handler default, else
`DEFAULT_X402_ADDRESS`), `chain` and `memo`. -/
def require_payment (amount_usd : ℚ) (currency : String)
    (recipient_address : Option String) (memo chain : String)
    (self_recipient : Option String) : Response :=
  let address := pyStrOr recipient_address
    (pyStrOr self_recipient (some ("DEFAULT_X402_ADDRESS")))
  Response.paymentRequired amount_usd currency (address.getD ("")) chain memo

/-- Deployment configuration read by the endpoint: whether an escrow handler
was constructed at startup (`ESCROW_CONTRACT_ADDRESS` plus
`EDGE_SERVICE_PRIVATE_KEY` both set), the `X402_RECIPIENT_ADDRESS` value (also
the handler's own default recipient, constructed from the same variable), and
the `X402_CHAIN` value. -/
structure Config where
  escrowConfigured : Bool
  recipientAddress : Option String
  chainEnv : Option String

/-- One inbound `/trade` request: body presence, the three body fields, and
the two headers. -/
structure Request where
  hasBody : Bool
  contract : Option String
  quantity : Option ℤ
  side : Option String
  agentIdHeader : Option String
  paymentSignature : Option String

/-- Oracle for the collaborators of one request: the quoted price
(`get_current_price` catches all its exceptions and returns `None` on any
failure), the escrow `getTrade` call outcome, the facilitator and chain-RPC
behaviour, the exchange order submission (`execute_trade` of
`trade_executor.py` catches all its exceptions and returns `None` on failure),
and the outcomes of the escrow `refund`/`release` submissions and the ledger
insert (which re-raise on failure). -/
structure World where
  price : Option ℚ
  getTrade : Except PyErr EscrowTrade
  fac : FacOutcome
  onchain : OnChainWorld
  execResult : Option String
  refundResult : Except PyErr String
  releaseResult : Except PyErr String
  ledgerResult : Except PyErr Unit

/-- Guard of the escrow verification/settlement branches
(`server.py` lines 159, 220, 239): `escrow_handler and is_trade_hash`. -/
def trade_hash_route (cfg : Config) (sig : String) : Bool :=
  cfg.escrowConfigured && is_trade_hash sig

/-- The no-payment branch (`server.py` lines 126-150): build memo and chain,
then call `require_payment` with the keyword arguments of lines 143-149.
The trade-hash generation of lines 132-137 precedes the call and has no
observable effect.  An unexpected keyword raises `TypeError`, which no
handler in the endpoint catches. -/
def no_payment_branch (cfg : Config) (ct sd : String) (q : ℤ)
    (required : ℚ) : Except PyErr Response :=
  let memo := ("Kalshi trade: ") ++ ct ++ (" ") ++ sd ++ (" x") ++ toString q
  let chain := cfg.chainEnv.getD ("ethereum")
  if pyCallKwargsOk require_payment_param_names trade_endpoint_kwarg_names then
    Except.ok (require_payment required ("USDC") cfg.recipientAddress memo chain
      cfg.recipientAddress)
  else
    Except.error PyErr.typeError

/-- Trade-failure branch (`server.py` lines 217-235): when the escrow route is
on, re-derive the hash bytes and attempt `refund_funds`, swallowing any
exception of that block; respond 500 with
`refunded = (escrow_handler is not None and is_trade_hash)`. -/
def exec_failed_branch (cfg : Config) (sig ct : String) :
    List SrvAction × Except PyErr Response :=
  let refundActs : List SrvAction :=
    if trade_hash_route cfg sig then
      match bytes_fromhex_len (replace0x sig.data) with
      | Except.ok _ => [SrvAction.refundCall sig]
      | Except.error _ => []
    else []
  (refundActs, Except.ok (Response.execFailed ct (trade_hash_route cfg sig)))

/-- Settlement and recording after a successful execution
(`server.py` lines 237-272): when the escrow route is on, re-derive the hash
bytes and attempt `release_funds`, swallowing any exception of that block;
then write the ledger entry (`record_trade` re-raises on failure, which no
handler in the endpoint catches) and respond with the success body. -/
def settle_and_record (cfg : Config) (w : World) (sig ct sd aid tid : String)
    (q : ℤ) (price required : ℚ) : List SrvAction × Except PyErr Response :=
  let releaseActs : List SrvAction :=
    if trade_hash_route cfg sig then
      match bytes_fromhex_len (replace0x sig.data) with
      | Except.ok _ => [SrvAction.releaseCall sig tid]
      | Except.error _ => []
    else []
  let acts := releaseActs ++ [SrvAction.ledgerWrite aid ct q sd tid price sig]
  match w.ledgerResult with
  | Except.ok _ =>
    (acts, Except.ok (Response.success tid price q ct sd required aid))
  | Except.error e => (acts, Except.error e)

/-- Steps 5-7 (`server.py` lines 209-272): submit the order; on a falsy trade
id run the trade-failure branch, otherwise settle and record. -/
def execute_after_verify (cfg : Config) (w : World) (sig ct sd aid : String)
    (q : ℤ) (price required : ℚ) : List SrvAction × Except PyErr Response :=
  let execAct := [SrvAction.execTradeCall ct sd q price]
  match w.execResult with
  | none =>
    let r := exec_failed_branch cfg sig ct
    (execAct ++ r.1, r.2)
  | some tid =>
    let r := settle_and_record cfg w sig ct sd aid tid q price required
    (execAct ++ r.1, r.2)

/-- Step 4 (`server.py` lines 152-207): dispatch on the proof shape.  Escrow
route: decode the hash inside a `try` whose handler answers 402 on any
exception; check byte length, deposit activity, amount tolerance and
case-insensitive recipient equality (a `None` configured recipient raises
`AttributeError` inside the same `try`).  Non-escrow route: delegate to
`verify_payment`; a falsy result answers 402. -/
def verify_and_execute (cfg : Config) (w : World) (sig ct sd aid : String)
    (q : ℤ) (price required : ℚ) : List SrvAction × Except PyErr Response :=
  if trade_hash_route cfg sig then
    match bytes_fromhex_len (replace0x sig.data) with
    | Except.error _ =>
      ([], Except.ok (Response.verifFailed ("Escrow verification failed") required))
    | Except.ok n =>
      if n ≠ 32 then
        ([], Except.ok (Response.verifFailed ("Invalid trade hash format") required))
      else
        let vd := verify_deposit w.getTrade
        let acts0 := [SrvAction.getTradeCall sig]
        if vd.1 = false then
          (acts0, Except.ok (Response.verifFailed ("Escrow deposit not found") required))
        else
          match vd.2 with
          | none =>
            (acts0, Except.ok (Response.verifFailed ("Escrow verification failed") required))
          | some info =>
            if escrow_amount_accepts info.amount required = false then
              (acts0, Except.ok (Response.verifFailed ("Amount mismatch") required))
            else
              match cfg.recipientAddress with
              | none =>
                (acts0, Except.ok (Response.verifFailed ("Escrow verification failed") required))
              | some recip =>
                if asciiLower info.recipient = asciiLower recip then
                  let r := execute_after_verify cfg w sig ct sd aid q price required
                  (acts0 ++ r.1, r.2)
                else
                  (acts0, Except.ok (Response.verifFailed ("Recipient mismatch") required))
  else
    let chain := cfg.chainEnv.getD ("ethereum")
    let acts0 := [SrvAction.verifyPaymentCall sig required]
    match verify_payment sig required ("USDC") cfg.recipientAddress
        cfg.recipientAddress (some chain) w.fac w.onchain with
    | Except.error e => (acts0, Except.error e)
    | Except.ok b =>
      if b then
        let r := execute_after_verify cfg w sig ct sd aid q price required
        (acts0 ++ r.1, r.2)
      else
        (acts0, Except.ok (Response.verifFailed ("Payment verification failed") required))

/-- The `/trade` endpoint `execute_trade` (`server.py` lines 70-272): request
validation in source order, price quoting, required-payment computation, then
the no-payment branch or proof verification and the post-verification
pipeline.  The result pairs the issued external calls with either a response
or an uncaught exception (which Flask would surface as HTTP 500). -/
def execute_trade (cfg : Config) (req : Request) (w : World) :
    List SrvAction × Except PyErr Response :=
  if req.hasBody = false then
    ([], Except.ok (Response.badRequest ("Missing request body")))
  else
    let aid := req.agentIdHeader.getD ("unknown")
    match req.contract with
    | none => ([], Except.ok (Response.badRequest ("Missing required field: contract")))
    | some ct =>
      if ct = "" then
        ([], Except.ok (Response.badRequest ("Missing required field: contract")))
      else
        match req.quantity with
        | none => ([], Except.ok (Response.badRequest ("Missing or invalid field: quantity")))
        | some q =>
          if q ≤ 0 then
            ([], Except.ok (Response.badRequest ("Missing or invalid field: quantity")))
          else
            match req.side with
            | none => ([], Except.ok (Response.badRequest ("Invalid side: must be yes or no")))
            | some sd =>
              if sd = "yes" ∨ sd = "no" then
                match w.price with
                | none => ([SrvAction.priceQuery ct sd], Except.ok (Response.priceFailed ct))
                | some price =>
                  let required := price * (q : ℚ)
                  match req.paymentSignature with
                  | none =>
                    ([SrvAction.priceQuery ct sd], no_payment_branch cfg ct sd q required)
                  | some sig =>
                    if sig = "" then
                      ([SrvAction.priceQuery ct sd], no_payment_branch cfg ct sd q required)
                    else
                      let r := verify_and_execute cfg w sig ct sd aid q price required
                      (SrvAction.priceQuery ct sd :: r.1, r.2)
              else
                ([], Except.ok (Response.badRequest ("Invalid side: must be yes or no")))

/-! ## General lemmas about the embedded handlers -/

/-- `_verify_on_chain` never lets an exception escape: its outer handler maps
any error of the body to `False`. -/
theorem verify_on_chain_total (txHash : String) (expected : ℚ) (currency : String)
    (recip chain : Option String) (w : OnChainWorld) :
    ∃ b, verify_on_chain txHash expected currency recip chain w = Except.ok b := by
  unfold verify_on_chain
  cases verify_on_chain_body txHash expected currency recip chain w with
  | ok b => exact ⟨b, rfl⟩
  | error e => exact ⟨false, rfl⟩

/-- Fixture: an on-chain world where everything succeeds but the receipt is
absent; variants below override single fields. -/
def oc_base : OnChainWorld :=
  { detectedChain := none, usdcOf := fun _ => ("0xUSDC"),
    getTx1 := Except.ok (), getReceipt := Except.ok none,
    getTx2 := Except.ok ⟨none⟩ }

/-- C7: for every escrow record read by `verify_deposit`, the returned
`is_active` flag is true exactly when the agent address is non-zero and
`released` and `refunded` are both false; whenever `released` or `refunded` is
true the flag is false regardless of every other field. -/
theorem verify_deposit_is_active_iff (t : EscrowTrade) :
    ((verify_deposit (Except.ok t)).1 = true ↔
      (t.agent ≠ zero_address ∧ t.released = false ∧ t.refunded = false)) ∧
    (t.released = true ∨ t.refunded = true →
      (verify_deposit (Except.ok t)).1 = false) := by
  constructor
  · simp [verify_deposit, Bool.and_eq_true, Bool.not_eq_true', and_assoc]
  · intro h
    rcases h with h | h <;> simp [verify_deposit, h]

/-- Witness for C7 at a concrete released record. -/
theorem verify_deposit_is_active_iff_witness :
    (verify_deposit (Except.ok ⟨("0xA"), ("0xB"), 5500000, (""), 0, true, false⟩)).1
      = false :=
  (verify_deposit_is_active_iff ⟨("0xA"), ("0xB"), 5500000, (""), 0, true, false⟩).2
    (Or.inl rfl)

/-- C8: `_verify_on_chain` fails closed, returning `ok false` (no exception)
when the transaction lookup raises (not found), when the receipt fetch raises
(pending), when the receipt is `None`, and when the receipt status is not 1. -/
theorem verify_on_chain_fails_closed (txh : String) (exp : ℚ) (cur : String)
    (recip chain : Option String) (w : OnChainWorld) :
    (∀ e, w.getTx1 = Except.error e →
      verify_on_chain txh exp cur recip chain w = Except.ok false) ∧
    (∀ e, w.getReceipt = Except.error e →
      verify_on_chain txh exp cur recip chain w = Except.ok false) ∧
    (w.getReceipt = Except.ok none →
      verify_on_chain txh exp cur recip chain w = Except.ok false) ∧
    (∀ r, w.getReceipt = Except.ok (some r) → r.status ≠ 1 →
      verify_on_chain txh exp cur recip chain w = Except.ok false) := by
  refine ⟨?_, ?_, ?_, ?_⟩
  · intro e he
    simp [verify_on_chain, verify_on_chain_body, he]
  · intro e he
    cases hg : w.getTx1 <;> simp [verify_on_chain, verify_on_chain_body, hg, he]
  · intro he
    cases hg : w.getTx1 <;> simp [verify_on_chain, verify_on_chain_body, hg, he]
  · intro r he hs
    cases hg : w.getTx1 <;> simp [verify_on_chain, verify_on_chain_body, hg, he, hs]

/-- Witness for C8, exercising all four fail-closed cases on concrete
worlds. -/
theorem verify_on_chain_fails_closed_witness :
    verify_on_chain ("0xt") 1 ("USDC") (some ("0xB")) none
        { oc_base with getTx1 := Except.error PyErr.other } = Except.ok false ∧
    verify_on_chain ("0xt") 1 ("USDC") (some ("0xB")) none
        { oc_base with getReceipt := Except.error PyErr.other } = Except.ok false ∧
    verify_on_chain ("0xt") 1 ("USDC") (some ("0xB")) none oc_base = Except.ok false ∧
    verify_on_chain ("0xt") 1 ("USDC") (some ("0xB")) none
        { oc_base with getReceipt := Except.ok (some ⟨0, []⟩) } = Except.ok false :=
  ⟨(verify_on_chain_fails_closed ("0xt") 1 ("USDC") (some ("0xB")) none _).1
      PyErr.other rfl,
   (verify_on_chain_fails_closed ("0xt") 1 ("USDC") (some ("0xB")) none _).2.1
      PyErr.other rfl,
   (verify_on_chain_fails_closed ("0xt") 1 ("USDC") (some ("0xB")) none _).2.2.1 rfl,
   (verify_on_chain_fails_closed ("0xt") 1 ("USDC") (some ("0xB")) none _).2.2.2
      ⟨0, []⟩ rfl (by decide)⟩

/-- C9: `verify_payment` consults the facilitator first: on HTTP 200 the
result is exactly the `verified` field (missing defaults to false, no on-chain
fallback, whatever the RPC world); any non-200 status and any
`RequestException` yield exactly the on-chain verification result. -/
theorem verify_payment_facilitator_first (proof : String) (exp : ℚ) (cur : String)
    (rArg selfR chain : Option String) (oc : OnChainWorld) :
    (∀ v, verify_payment proof exp cur rArg selfR chain
        (FacOutcome.resp 200 (Except.ok v)) oc = Except.ok (v.getD false)) ∧
    (∀ s j, s ≠ 200 → verify_payment proof exp cur rArg selfR chain
        (FacOutcome.resp s j) oc
      = verify_on_chain proof exp cur (pyStrOr rArg selfR) chain oc) ∧
    (verify_payment proof exp cur rArg selfR chain FacOutcome.reqError oc
      = verify_on_chain proof exp cur (pyStrOr rArg selfR) chain oc) := by
  refine ⟨?_, ?_, ?_⟩
  · intro v
    simp [verify_payment, verify_payment_body]
  · intro s j hs
    obtain ⟨b, hb⟩ := verify_on_chain_total proof exp cur (pyStrOr rArg selfR) chain oc
    simp [verify_payment, verify_payment_body, hs, hb]
  · obtain ⟨b, hb⟩ := verify_on_chain_total proof exp cur (pyStrOr rArg selfR) chain oc
    simp [verify_payment, verify_payment_body, hb]

/-- Witness for C9 at concrete facilitator outcomes (status 500, and a 200
response whose `verified` field is absent). -/
theorem verify_payment_facilitator_first_witness :
    verify_payment ("0xt") 1 ("USDC") (some ("0xB")) none (some ("ethereum"))
        (FacOutcome.resp 500 (Except.ok none)) oc_base
      = verify_on_chain ("0xt") 1 ("USDC") (pyStrOr (some ("0xB")) none)
          (some ("ethereum")) oc_base ∧
    verify_payment ("0xt") 1 ("USDC") (some ("0xB")) none (some ("ethereum"))
        (FacOutcome.resp 200 (Except.ok none)) oc_base = Except.ok false :=
  ⟨(verify_payment_facilitator_first ("0xt") 1 ("USDC") (some ("0xB")) none
      (some ("ethereum")) oc_base).2.1 500 (Except.ok none) (by decide),
   (verify_payment_facilitator_first ("0xt") 1 ("USDC") (some ("0xB")) none
      (some ("ethereum")) oc_base).1 none⟩

/-- C10: `verify_payment` is total at its interface: for every recipient
configuration (including none), every proof string, and arbitrary facilitator
and RPC behaviour it returns a boolean and never propagates an exception; and
any non-`RequestException` error inside the body (e.g. a JSON decode failure
of a 200 response) yields `false`. -/
theorem verify_payment_never_raises (proof : String) (exp : ℚ) (cur : String)
    (rArg selfR chain : Option String) (fac : FacOutcome) (oc : OnChainWorld) :
    (∃ b, verify_payment proof exp cur rArg selfR chain fac oc = Except.ok b) ∧
    (∀ e, e ≠ PyErr.requestException →
      verify_payment proof exp cur rArg selfR chain
        (FacOutcome.resp 200 (Except.error e)) oc = Except.ok false) := by
  constructor
  · obtain ⟨c, hc⟩ := verify_on_chain_total proof exp cur (pyStrOr rArg selfR) chain oc
    unfold verify_payment
    cases hb : verify_payment_body proof exp cur (pyStrOr rArg selfR) chain fac oc with
    | ok b => exact ⟨b, by simp [hb]⟩
    | error e =>
      cases e
      · exact ⟨false, by simp [hb]⟩
      · exact ⟨false, by simp [hb]⟩
      · exact ⟨false, by simp [hb]⟩
      · exact ⟨false, by simp [hb]⟩
      · exact ⟨c, by simp [hb, hc]⟩
      · exact ⟨false, by simp [hb]⟩
  · intro e he
    cases e
    case requestException => exact absurd rfl he
    all_goals simp [verify_payment, verify_payment_body]

/-- Witness for C10 with no recipient configured and a 200 response whose
body fails to parse with a non-request error. -/
theorem verify_payment_never_raises_witness :
    verify_payment (("not-hex")) 1 ("USDC") none none none
        (FacOutcome.resp 200 (Except.error PyErr.valueError)) oc_base
      = Except.ok false :=
  (verify_payment_never_raises (("not-hex")) 1 ("USDC") none none none
      (FacOutcome.resp 200 (Except.error PyErr.valueError)) oc_base).2
    PyErr.valueError (by decide)

/-- Reduction of the endpoint on a valid request carrying a payment
signature: validation passes, the price is quoted, and the result is the
price-query action followed by the verification/settlement pipeline. -/
theorem execute_trade_with_sig (cfg : Config) (w : World) (ct sd : String)
    (aidH : Option String) (q : ℤ) (sig : String) (price : ℚ)
    (hct : ct ≠ "") (hq : 0 < q) (hsd : sd = "yes" ∨ sd = "no")
    (hsig : sig ≠ "") (hp : w.price = some price) :
    execute_trade cfg ⟨true, some ct, some q, some sd, aidH, some sig⟩ w
      = (SrvAction.priceQuery ct sd ::
          (verify_and_execute cfg w sig ct sd (aidH.getD ("unknown")) q price
            (price * (q : ℚ))).1,
         (verify_and_execute cfg w sig ct sd (aidH.getD ("unknown")) q price
            (price * (q : ℚ))).2) := by
  unfold execute_trade
  simp [hct, hq, not_le.mpr hq, hsd, hp, hsig]

/-- Fixture: a syntactically valid trade request with no payment signature. -/
def req_nosig : Request :=
  { hasBody := true, contract := some ("ABC-1"), quantity := some 10,
    side := some ("yes"), agentIdHeader := none, paymentSignature := none }

/-- Fixture: base world — price 0.55 quoted, an active matching escrow
deposit of 5.5 USDC for recipient `0xB`, facilitator unreachable, empty
chain state, failing trade execution, failing refund/release submissions,
succeeding ledger. -/
def world_base : World :=
  { price := some (11 / 20),
    getTrade := Except.ok ⟨("0xA"), ("0xB"), 5500000, (""), 0, false, false⟩,
    fac := FacOutcome.reqError, onchain := oc_base, execResult := none,
    refundResult := Except.error PyErr.other,
    releaseResult := Except.error PyErr.other,
    ledgerResult := Except.ok () }

/-- C1: the no-payment branch never produces the specified HTTP 402: the call
at `server.py` lines 142-150 passes the keyword arguments `escrow_address` and
`trade_hash`, which `require_payment` (`x402_handler.py` lines 14-16) does not
accept, so the branch raises `TypeError` (surfaced by Flask as HTTP 500) on a
valid request without a `PAYMENT-SIGNATURE` — with and without escrow
configured alike.  Had the keywords bound, the intended response would have
been a 402 carrying `amount = quoted_price * quantity`, as the last conjunct
records for the same inputs. -/
theorem no_payment_branch_raises_type_error :
    (execute_trade ⟨false, some ("0xB"), none⟩ req_nosig world_base).2
      = Except.error PyErr.typeError ∧
    (execute_trade ⟨true, some ("0xB"), none⟩ req_nosig world_base).2
      = Except.error PyErr.typeError ∧
    require_payment (11 / 20 * 10) ("USDC") (some ("0xB"))
        (("Kalshi trade: ABC-1 yes x10")) ("ethereum") (some ("0xB"))
      = Response.paymentRequired (11 / 20 * 10) ("USDC") ("0xB") ("ethereum")
          (("Kalshi trade: ABC-1 yes x10")) := by
  refine ⟨?_, ?_, ?_⟩
  · norm_num +decide [execute_trade, req_nosig, world_base, no_payment_branch,
      pyCallKwargsOk, require_payment_param_names, trade_endpoint_kwarg_names]
  · norm_num +decide [execute_trade, req_nosig, world_base, no_payment_branch,
      pyCallKwargsOk, require_payment_param_names, trade_endpoint_kwarg_names]
  · simp [require_payment, pyStrOr]

/-- `replace0x` leaves a list of hexadecimal characters unchanged: hex digits
never contain the letter `x`, so no `0x` occurrence exists. -/
theorem replace0x_of_all_hex (cs : List Char) (h : cs.all isHexChar = true) :
    replace0x cs = cs := by
  induction cs with
  | nil => rfl
  | cons c rest ih =>
    cases rest with
    | nil => rfl
    | cons d rest2 =>
      simp only [List.all_cons, Bool.and_eq_true] at h
      have hd : ¬(c = '0' ∧ d = 'x') := by
        rintro ⟨-, rfl⟩
        exact absurd h.2.1 (by decide)
      simp only [replace0x, if_neg hd]
      rw [ih (by simp [List.all_cons, h.2.1, h.2.2])]

/-- Any string of the spec-side escrow shape (64 hex characters after an
optional `0x` prefix) also satisfies the code's routing condition: after
removing every `0x` occurrence exactly 64 characters remain. -/
theorem replace0x_length_of_claim_shape (s : String)
    (h : claim_escrow_hash_shape s = true) : (replace0x s.data).length = 64 := by
  unfold claim_escrow_hash_shape at h
  rw [Bool.and_eq_true] at h
  obtain ⟨hlen, hhex⟩ := h
  rw [Nat.beq_eq_true_eq] at hlen
  cases hcs : s.data with
  | nil =>
    rw [hcs] at hlen
    simp [strip0x] at hlen
  | cons c rest =>
    cases rest with
    | nil =>
      rw [hcs] at hlen
      simp [strip0x] at hlen
    | cons d rest2 =>
      rw [hcs] at hlen hhex
      by_cases h0 : c = '0' ∧ d = 'x'
      · obtain ⟨rfl, rfl⟩ := h0
        simp only [strip0x, if_pos (And.intro rfl rfl)] at hlen hhex
        simp only [replace0x, if_pos (And.intro rfl rfl)]
        rw [replace0x_of_all_hex rest2 hhex]
        exact hlen
      · simp only [strip0x, if_neg h0] at hlen hhex
        rw [replace0x_of_all_hex (c :: d :: rest2) hhex]
        exact hlen

/-- Observable marker of the non-escrow verification path: a
`verifyPaymentCall` action was issued. -/
def used_non_escrow_path (acts : List SrvAction) : Bool :=
  acts.any (fun a =>
    match a with
    | SrvAction.verifyPaymentCall _ _ => true
    | _ => false)

/-- The post-verification pipeline never issues a `verifyPaymentCall`. -/
theorem unep_after (cfg : Config) (w : World) (sig ct sd aid : String)
    (q : ℤ) (price required : ℚ) :
    used_non_escrow_path
      (execute_after_verify cfg w sig ct sd aid q price required).1 = false := by
  unfold execute_after_verify
  cases hex : w.execResult with
  | none =>
    unfold exec_failed_branch
    cases hr : trade_hash_route cfg sig with
    | false => simp [hr, used_non_escrow_path]
    | true =>
      cases hfh : bytes_fromhex_len (replace0x sig.data) <;>
        simp [hr, hfh, used_non_escrow_path]
  | some tid =>
    unfold settle_and_record
    cases hr : trade_hash_route cfg sig with
    | false => cases hl : w.ledgerResult <;> simp [hr, hl, used_non_escrow_path]
    | true =>
      cases hfh : bytes_fromhex_len (replace0x sig.data) <;>
        cases hl : w.ledgerResult <;>
          simp [hr, hfh, hl, used_non_escrow_path]

/-- When the escrow route is taken, no `verifyPaymentCall` is ever issued. -/
theorem unep_escrow_route (cfg : Config) (w : World) (sig ct sd aid : String)
    (q : ℤ) (price required : ℚ) (hroute : trade_hash_route cfg sig = true) :
    used_non_escrow_path
      (verify_and_execute cfg w sig ct sd aid q price required).1 = false := by
  unfold verify_and_execute
  cases hfh : bytes_fromhex_len (replace0x sig.data) with
  | error e => simp [hroute, hfh, used_non_escrow_path]
  | ok n =>
    by_cases h32 : n = 32
    · subst h32
      cases hvd : (verify_deposit w.getTrade).1 with
      | false => simp [hroute, hfh, hvd, used_non_escrow_path]
      | true =>
        cases hvi : (verify_deposit w.getTrade).2 with
        | none => simp [hroute, hfh, hvd, hvi, used_non_escrow_path]
        | some info =>
          cases ham : escrow_amount_accepts info.amount required with
          | false => simp [hroute, hfh, hvd, hvi, ham, used_non_escrow_path]
          | true =>
            cases hra : cfg.recipientAddress with
            | none => simp [hroute, hfh, hvd, hvi, ham, hra, used_non_escrow_path]
            | some recip =>
              by_cases hlow : asciiLower info.recipient = asciiLower recip
              · have hb := unep_after cfg w sig ct sd aid q price required
                simp only [used_non_escrow_path] at hb
                simp [hroute, hfh, hvd, hvi, ham, hra, hlow, used_non_escrow_path, hb]
              · simp [hroute, hfh, hvd, hvi, ham, hra, hlow, used_non_escrow_path]
    · simp [hroute, hfh, h32, used_non_escrow_path]

/-- When the escrow route is not taken, a `verifyPaymentCall` is always
issued. -/
theorem unep_non_escrow_route (cfg : Config) (w : World) (sig ct sd aid : String)
    (q : ℤ) (price required : ℚ) (hroute : trade_hash_route cfg sig = false) :
    used_non_escrow_path
      (verify_and_execute cfg w sig ct sd aid q price required).1 = true := by
  unfold verify_and_execute
  cases hvp : verify_payment sig required ("USDC") cfg.recipientAddress
      cfg.recipientAddress (some (cfg.chainEnv.getD ("ethereum"))) w.fac w.onchain with
  | error e => simp [hroute, hvp, used_non_escrow_path]
  | ok b => cases b <;> simp [hroute, hvp, used_non_escrow_path]

/-- Fixture: a 64-character non-hexadecimal proof string. -/
def sig_z64 : String := String.mk (List.replicate 64 ('z'))

/-- Fixture: a 64-character hexadecimal proof string. -/
def sig_a64 : String := String.mk (List.replicate 64 ('a'))

/-- Fixture: the valid request of `req_nosig` carrying a proof string. -/
def req_sig (s : String) : Request :=
  { req_nosig with paymentSignature := some s }

/-- C2 counterexample: a 64-character non-hexadecimal string is not of the
spec's escrow shape, yet with escrow configured the endpoint routes it to the
escrow path — the run issues no `verifyPaymentCall` and answers with the
escrow branch's 402 (`bytes.fromhex` raises inside the escrow `try`). -/
theorem escrow_routing_counterexample :
    claim_escrow_hash_shape sig_z64 = false ∧
    execute_trade ⟨true, some ("0xB"), none⟩ (req_sig sig_z64) world_base
      = ([SrvAction.priceQuery ("ABC-1") ("yes")],
         Except.ok (Response.verifFailed ("Escrow verification failed") (11 / 2))) ∧
    used_non_escrow_path
      (execute_trade ⟨true, some ("0xB"), none⟩ (req_sig sig_z64) world_base).1
      = false := by
  have h : execute_trade ⟨true, some ("0xB"), none⟩ (req_sig sig_z64) world_base
      = ([SrvAction.priceQuery ("ABC-1") ("yes")],
         Except.ok (Response.verifFailed ("Escrow verification failed") (11 / 2))) := by
    norm_num +decide [execute_trade, req_sig, req_nosig, world_base,
      verify_and_execute, trade_hash_route, is_trade_hash, sig_z64,
      bytes_fromhex_len, isHexChar, replace0x]
  refine ⟨by decide, h, ?_⟩
  rw [h]
  decide

/-- C2 amended: with escrow configured, a proof string is routed to the
escrow path if and only if removing every occurrence of the substring `0x`
leaves exactly 64 characters — hexadecimality is not checked at routing
(non-hex strings of that shape enter the escrow path and are then rejected
there), while every string of the spec's 64-hex-characters shape is indeed
routed to the escrow path. -/
theorem escrow_routing_amended (recip chainEnv : Option String) (w : World)
    (ct sd : String) (aidH : Option String) (q : ℤ) (sig : String) (price : ℚ)
    (hct : ct ≠ "") (hq : 0 < q) (hsd : sd = "yes" ∨ sd = "no") (hsig : sig ≠ "")
    (hp : w.price = some price) :
    (used_non_escrow_path (execute_trade ⟨true, recip, chainEnv⟩
        ⟨true, some ct, some q, some sd, aidH, some sig⟩ w).1 = false
      ↔ (replace0x sig.data).length = 64) ∧
    (claim_escrow_hash_shape sig = true →
      used_non_escrow_path (execute_trade ⟨true, recip, chainEnv⟩
        ⟨true, some ct, some q, some sd, aidH, some sig⟩ w).1 = false) := by
  have hred := execute_trade_with_sig ⟨true, recip, chainEnv⟩ w ct sd aidH q sig
    price hct hq hsd hsig hp
  constructor
  · rw [hred]
    cases hr : trade_hash_route ⟨true, recip, chainEnv⟩ sig with
    | true =>
      have hit : is_trade_hash sig = true := by
        rw [trade_hash_route] at hr
        simpa using hr
      have hlen : (replace0x sig.data).length = 64 := by
        simpa [is_trade_hash] using hit
      have hb := unep_escrow_route ⟨true, recip, chainEnv⟩ w sig ct sd
        (aidH.getD ("unknown")) q price (price * (q : ℚ)) hr
      simp only [used_non_escrow_path] at hb
      simp [used_non_escrow_path, hb, hlen]
    | false =>
      have hlen : ¬((replace0x sig.data).length = 64) := by
        intro hE
        have hit : is_trade_hash sig = true := by simp [is_trade_hash, hE]
        rw [trade_hash_route] at hr
        simp [hit] at hr
      have hb := unep_non_escrow_route ⟨true, recip, chainEnv⟩ w sig ct sd
        (aidH.getD ("unknown")) q price (price * (q : ℚ)) hr
      simp only [used_non_escrow_path] at hb
      simp [used_non_escrow_path, hb, hlen]
  · intro hshape
    have hlen := replace0x_length_of_claim_shape sig hshape
    have hr : trade_hash_route ⟨true, recip, chainEnv⟩ sig = true := by
      simp [trade_hash_route, is_trade_hash, hlen]
    have hb := unep_escrow_route ⟨true, recip, chainEnv⟩ w sig ct sd
      (aidH.getD ("unknown")) q price (price * (q : ℚ)) hr
    simp only [used_non_escrow_path] at hb
    rw [hred]
    simp [used_non_escrow_path, hb]

/-- Witness for the amended C2 at a concrete valid request with a 64-hex
proof string. -/
theorem escrow_routing_amended_witness :
    (used_non_escrow_path (execute_trade ⟨true, some ("0xB"), none⟩
        ⟨true, some ("ABC-1"), some 10, some ("yes"), none, some sig_a64⟩
        world_base).1 = false
      ↔ (replace0x sig_a64.data).length = 64) ∧
    (claim_escrow_hash_shape sig_a64 = true →
      used_non_escrow_path (execute_trade ⟨true, some ("0xB"), none⟩
        ⟨true, some ("ABC-1"), some 10, some ("yes"), none, some sig_a64⟩
        world_base).1 = false) :=
  escrow_routing_amended (some ("0xB")) none world_base ("ABC-1") ("yes") none 10
    sig_a64 (11 / 20) (by decide) (by decide) (Or.inl rfl) (by decide) rfl

/-- Actions that execute a trade, move escrow funds, or write the ledger. -/
def is_effect : SrvAction → Bool
  | SrvAction.execTradeCall _ _ _ _ => true
  | SrvAction.refundCall _ => true
  | SrvAction.releaseCall _ _ => true
  | SrvAction.ledgerWrite _ _ _ _ _ _ _ => true
  | _ => false

/-- Payment verification fails for a given configuration, world and proof
string: mirror of the failure conditions checked by step 4 of the endpoint
(`server.py` lines 152-207), in source order. -/
def verification_fails (cfg : Config) (w : World) (sig : String)
    (required : ℚ) : Bool :=
  if trade_hash_route cfg sig then
    match bytes_fromhex_len (replace0x sig.data) with
    | Except.error _ => true
    | Except.ok n =>
      if n ≠ 32 then true
      else
        let vd := verify_deposit w.getTrade
        if vd.1 = false then true
        else
          match vd.2 with
          | none => true
          | some info =>
            if escrow_amount_accepts info.amount required = false then true
            else
              match cfg.recipientAddress with
              | none => true
              | some recip =>
                if asciiLower info.recipient = asciiLower recip then false
                else true
  else
    match verify_payment sig required ("USDC") cfg.recipientAddress
        cfg.recipientAddress (some (cfg.chainEnv.getD ("ethereum"))) w.fac
        w.onchain with
    | Except.error _ => false
    | Except.ok b => !b

/-- When verification fails, the verification stage answers a 402 whose body
carries the required amount, and issues no effectful action. -/
theorem verify_and_execute_fail (cfg : Config) (w : World) (sig ct sd aid : String)
    (q : ℤ) (price required : ℚ)
    (hv : verification_fails cfg w sig required = true) :
    ∃ msg acts, verify_and_execute cfg w sig ct sd aid q price required
        = (acts, Except.ok (Response.verifFailed msg required))
      ∧ acts.all (fun a => !(is_effect a)) = true := by
  cases hr : trade_hash_route cfg sig with
  | false =>
    cases hvp : verify_payment sig required ("USDC") cfg.recipientAddress
        cfg.recipientAddress (some (cfg.chainEnv.getD ("ethereum"))) w.fac
        w.onchain with
    | error e => simp [verification_fails, hr, hvp] at hv
    | ok b =>
      cases b with
      | true => simp [verification_fails, hr, hvp] at hv
      | false =>
        exact ⟨("Payment verification failed"),
          [SrvAction.verifyPaymentCall sig required],
          by simp [verify_and_execute, hr, hvp], by simp [is_effect]⟩
  | true =>
    cases hfh : bytes_fromhex_len (replace0x sig.data) with
    | error e =>
      exact ⟨("Escrow verification failed"), [],
        by simp [verify_and_execute, hr, hfh], by decide⟩
    | ok n =>
      by_cases h32 : n = 32
      case neg =>
        exact ⟨("Invalid trade hash format"), [],
          by simp [verify_and_execute, hr, hfh, h32], by decide⟩
      case pos =>
        subst h32
        cases hvd : (verify_deposit w.getTrade).1 with
        | false =>
          exact ⟨("Escrow deposit not found"), [SrvAction.getTradeCall sig],
            by simp [verify_and_execute, hr, hfh, hvd], by simp [is_effect]⟩
        | true =>
          cases hvi : (verify_deposit w.getTrade).2 with
          | none =>
            exact ⟨("Escrow verification failed"), [SrvAction.getTradeCall sig],
              by simp [verify_and_execute, hr, hfh, hvd, hvi], by simp [is_effect]⟩
          | some info =>
            cases ham : escrow_amount_accepts info.amount required with
            | false =>
              exact ⟨("Amount mismatch"), [SrvAction.getTradeCall sig],
                by simp [verify_and_execute, hr, hfh, hvd, hvi, ham],
                by simp [is_effect]⟩
            | true =>
              cases hra : cfg.recipientAddress with
              | none =>
                exact ⟨("Escrow verification failed"), [SrvAction.getTradeCall sig],
                  by simp [verify_and_execute, hr, hfh, hvd, hvi, ham, hra],
                  by simp [is_effect]⟩
              | some recip =>
                by_cases hlow : asciiLower info.recipient = asciiLower recip
                · simp [verification_fails, hr, hfh, hvd, hvi, ham, hra, hlow] at hv
                · exact ⟨("Recipient mismatch"), [SrvAction.getTradeCall sig],
                    by simp [verify_and_execute, hr, hfh, hvd, hvi, ham, hra, hlow],
                    by simp [is_effect]⟩

/-- C4: whenever payment verification fails on a valid request, the endpoint
returns HTTP 402 with a body carrying the required amount, and issues no
trade execution, no escrow refund or release call, and no ledger write. -/
theorem verification_failure_402_no_side_effects (cfg : Config) (w : World)
    (ct sd : String) (aidH : Option String) (q : ℤ) (sig : String) (price : ℚ)
    (hct : ct ≠ "") (hq : 0 < q) (hsd : sd = "yes" ∨ sd = "no") (hsig : sig ≠ "")
    (hp : w.price = some price)
    (hv : verification_fails cfg w sig (price * (q : ℚ)) = true) :
    ∃ msg acts, execute_trade cfg ⟨true, some ct, some q, some sd, aidH, some sig⟩ w
        = (acts, Except.ok (Response.verifFailed msg (price * (q : ℚ))))
      ∧ Response.status (Response.verifFailed msg (price * (q : ℚ))) = 402
      ∧ acts.all (fun a => !(is_effect a)) = true := by
  obtain ⟨msg, acts, heq, hall⟩ := verify_and_execute_fail cfg w sig ct sd
    (aidH.getD ("unknown")) q price (price * (q : ℚ)) hv
  refine ⟨msg, SrvAction.priceQuery ct sd :: acts, ?_, rfl, ?_⟩
  · rw [execute_trade_with_sig cfg w ct sd aidH q sig price hct hq hsd hsig hp,
      heq]
  · simp only [List.all_cons, Bool.and_eq_true]
    exact ⟨by simp [is_effect], hall⟩

/-- Fixture: the base world with a facilitator that answers 200 with
`verified = false`. -/
def world_fac_false : World :=
  { world_base with fac := FacOutcome.resp 200 (Except.ok (some false)) }

/-- Witness for C4: concrete non-escrow request whose facilitator answers
`verified = false`. -/
theorem verification_failure_402_no_side_effects_witness :
    ∃ msg acts, execute_trade ⟨false, some ("0xB"), none⟩
        ⟨true, some ("ABC-1"), some 10, some ("yes"), none, some ("0xdeadbeef")⟩
        world_fac_false
        = (acts, Except.ok (Response.verifFailed msg (11 / 20 * ((10 : ℤ) : ℚ))))
      ∧ Response.status (Response.verifFailed msg (11 / 20 * ((10 : ℤ) : ℚ))) = 402
      ∧ acts.all (fun a => !(is_effect a)) = true :=
  verification_failure_402_no_side_effects ⟨false, some ("0xB"), none⟩
    world_fac_false ("ABC-1") ("yes") none 10 ("0xdeadbeef") (11 / 20)
    (by decide) (by decide) (Or.inl rfl) (by decide) rfl
    (by norm_num +decide [verification_fails, world_fac_false, world_base,
      trade_hash_route, is_trade_hash, replace0x, verify_payment,
      verify_payment_body, pyStrOr])

/-- C5: when trade execution fails after the escrow path verified the
deposit, the refund is attempted (`refundCall` is issued) and the response is
HTTP 500 with `refunded = true` — for every refund outcome, including a
raising refund submission, since the endpoint discards the refund result. -/
theorem exec_failure_refunds_and_500 (cfg : Config) (w : World) (ct sd : String)
    (aidH : Option String) (q : ℤ) (sig : String) (price : ℚ)
    (hct : ct ≠ "") (hq : 0 < q) (hsd : sd = "yes" ∨ sd = "no") (hsig : sig ≠ "")
    (hp : w.price = some price)
    (hroute : trade_hash_route cfg sig = true)
    (hv : verification_fails cfg w sig (price * (q : ℚ)) = false)
    (hexec : w.execResult = none) :
    execute_trade cfg ⟨true, some ct, some q, some sd, aidH, some sig⟩ w
      = ([SrvAction.priceQuery ct sd, SrvAction.getTradeCall sig,
          SrvAction.execTradeCall ct sd q price, SrvAction.refundCall sig],
         Except.ok (Response.execFailed ct true)) ∧
    Response.status (Response.execFailed ct true) = 500 := by
  refine ⟨?_, rfl⟩
  rw [execute_trade_with_sig cfg w ct sd aidH q sig price hct hq hsd hsig hp]
  cases hfh : bytes_fromhex_len (replace0x sig.data) with
  | error e => simp [verification_fails, hroute, hfh] at hv
  | ok n =>
    by_cases h32 : n = 32
    case neg => simp [verification_fails, hroute, hfh, h32] at hv
    case pos =>
      subst h32
      cases hvd : (verify_deposit w.getTrade).1 with
      | false => simp [verification_fails, hroute, hfh, hvd] at hv
      | true =>
        cases hvi : (verify_deposit w.getTrade).2 with
        | none => simp [verification_fails, hroute, hfh, hvd, hvi] at hv
        | some info =>
          cases ham : escrow_amount_accepts info.amount (price * (q : ℚ)) with
          | false => simp [verification_fails, hroute, hfh, hvd, hvi, ham] at hv
          | true =>
            cases hra : cfg.recipientAddress with
            | none => simp [verification_fails, hroute, hfh, hvd, hvi, ham, hra] at hv
            | some recip =>
              by_cases hlow : asciiLower info.recipient = asciiLower recip
              · simp [verify_and_execute, hroute, hfh, hvd, hvi, ham, hra, hlow,
                  execute_after_verify, hexec, exec_failed_branch]
              · simp [verification_fails, hroute, hfh, hvd, hvi, ham, hra, hlow] at hv

/-- Witness for C5: escrow verified active, execution fails, and the refund
submission itself raises (`world_base.refundResult` is an error); the
response is still 500 with `refunded = true`. -/
theorem exec_failure_refunds_and_500_witness :
    execute_trade ⟨true, some ("0xB"), none⟩
        ⟨true, some ("ABC-1"), some 10, some ("yes"), none, some sig_a64⟩
        world_base
      = ([SrvAction.priceQuery ("ABC-1") ("yes"), SrvAction.getTradeCall sig_a64,
          SrvAction.execTradeCall ("ABC-1") ("yes") 10 (11 / 20),
          SrvAction.refundCall sig_a64],
         Except.ok (Response.execFailed ("ABC-1") true)) ∧
    Response.status (Response.execFailed ("ABC-1") true) = 500 :=
  exec_failure_refunds_and_500 ⟨true, some ("0xB"), none⟩ world_base ("ABC-1")
    ("yes") none 10 sig_a64 (11 / 20) (by decide) (by decide) (Or.inl rfl)
    (by decide) rfl (by decide)
    (by norm_num +decide [verification_fails, world_base, trade_hash_route,
      is_trade_hash, sig_a64, replace0x, bytes_fromhex_len, isHexChar,
      verify_deposit, zero_address, escrow_amount_accepts, ratAbs, asciiLower,
      asciiLowerChar])
    rfl

/-- C6: when the escrow release call fails after a successful execution and
the ledger write succeeds, the response is still the HTTP 200 success body;
the release was attempted (`releaseCall` issued), no refund is issued, and the
trade stays recorded — for every release outcome, including a raising release
submission, since the endpoint discards the release result. -/
theorem release_failure_still_success (cfg : Config) (w : World) (ct sd : String)
    (aidH : Option String) (q : ℤ) (sig : String) (price : ℚ) (tid : String)
    (hct : ct ≠ "") (hq : 0 < q) (hsd : sd = "yes" ∨ sd = "no") (hsig : sig ≠ "")
    (hp : w.price = some price)
    (hroute : trade_hash_route cfg sig = true)
    (hv : verification_fails cfg w sig (price * (q : ℚ)) = false)
    (hexec : w.execResult = some tid)
    (hledger : w.ledgerResult = Except.ok ()) :
    execute_trade cfg ⟨true, some ct, some q, some sd, aidH, some sig⟩ w
      = ([SrvAction.priceQuery ct sd, SrvAction.getTradeCall sig,
          SrvAction.execTradeCall ct sd q price, SrvAction.releaseCall sig tid,
          SrvAction.ledgerWrite (aidH.getD ("unknown")) ct q sd tid price sig],
         Except.ok (Response.success tid price q ct sd (price * (q : ℚ))
           (aidH.getD ("unknown")))) ∧
    Response.status (Response.success tid price q ct sd (price * (q : ℚ))
      (aidH.getD ("unknown"))) = 200 := by
  refine ⟨?_, rfl⟩
  rw [execute_trade_with_sig cfg w ct sd aidH q sig price hct hq hsd hsig hp]
  cases hfh : bytes_fromhex_len (replace0x sig.data) with
  | error e => simp [verification_fails, hroute, hfh] at hv
  | ok n =>
    by_cases h32 : n = 32
    case neg => simp [verification_fails, hroute, hfh, h32] at hv
    case pos =>
      subst h32
      cases hvd : (verify_deposit w.getTrade).1 with
      | false => simp [verification_fails, hroute, hfh, hvd] at hv
      | true =>
        cases hvi : (verify_deposit w.getTrade).2 with
        | none => simp [verification_fails, hroute, hfh, hvd, hvi] at hv
        | some info =>
          cases ham : escrow_amount_accepts info.amount (price * (q : ℚ)) with
          | false => simp [verification_fails, hroute, hfh, hvd, hvi, ham] at hv
          | true =>
            cases hra : cfg.recipientAddress with
            | none => simp [verification_fails, hroute, hfh, hvd, hvi, ham, hra] at hv
            | some recip =>
              by_cases hlow : asciiLower info.recipient = asciiLower recip
              · simp [verify_and_execute, hroute, hfh, hvd, hvi, ham, hra, hlow,
                  execute_after_verify, hexec, settle_and_record, hledger]
              · simp [verification_fails, hroute, hfh, hvd, hvi, ham, hra, hlow] at hv

/-- Fixture: the base world with a successful execution (the release
submission still raises, the ledger write succeeds). -/
def world_exec_ok : World := { world_base with execResult := some ("T1") }

/-- Witness for C6: successful execution, raising release submission
(`world_base.releaseResult` is an error), successful ledger write; the
response is the 200 success body. -/
theorem release_failure_still_success_witness :
    execute_trade ⟨true, some ("0xB"), none⟩
        ⟨true, some ("ABC-1"), some 10, some ("yes"), none, some sig_a64⟩
        world_exec_ok
      = ([SrvAction.priceQuery ("ABC-1") ("yes"), SrvAction.getTradeCall sig_a64,
          SrvAction.execTradeCall ("ABC-1") ("yes") 10 (11 / 20),
          SrvAction.releaseCall sig_a64 ("T1"),
          SrvAction.ledgerWrite ("unknown") ("ABC-1") 10 ("yes") ("T1") (11 / 20)
            sig_a64],
         Except.ok (Response.success ("T1") (11 / 20) 10 ("ABC-1") ("yes")
           (11 / 20 * ((10 : ℤ) : ℚ)) ("unknown"))) ∧
    Response.status (Response.success ("T1") (11 / 20) 10 ("ABC-1") ("yes")
      (11 / 20 * ((10 : ℤ) : ℚ)) ("unknown")) = 200 :=
  release_failure_still_success ⟨true, some ("0xB"), none⟩ world_exec_ok
    ("ABC-1") ("yes") none 10 sig_a64 (11 / 20) ("T1") (by decide) (by decide)
    (Or.inl rfl) (by decide) rfl (by decide)
    (by norm_num +decide [verification_fails, world_exec_ok, world_base,
      trade_hash_route, is_trade_hash, sig_a64, replace0x, bytes_fromhex_len,
      isHexChar, verify_deposit, zero_address, escrow_amount_accepts, ratAbs,
      asciiLower, asciiLowerChar])
    rfl rfl
